import Mathlib

/-!
Shallow embedding of the cryptographic-identity core of the RadixWalletKit
repository: CAP26 constants, derivation paths, factor-instance binding,
entity addresses, the network registry, curve key construction, accounts,
and Ed25519 public-key derivation.  Definitions are translated from the
Rust sources; where a definition stands in for repository code that is not
available, its doc comment says so and names what is modelled.
-/

namespace RWK

/-- CAP26 entity kinds, from `cap26_entity_kind.rs` (`#[repr(u32)]`). -/
inductive CAP26EntityKind
  /-- An account entity type. -/
  | Account
  /-- Used by Persona. -/
  | Identity
deriving DecidableEq, Repr

/-- The `u32` discriminant of a `CAP26EntityKind` (`Account = 525`, `Identity = 618`). -/
def CAP26EntityKind.discriminant : CAP26EntityKind → Nat
  | .Account => 525
  | .Identity => 618

/-- CAP26 key kinds, from `cap26_key_kind.rs` (`#[repr(u32)]`). -/
inductive CAP26KeyKind
  /-- For a key to be used for signing transactions. -/
  | TransactionSigning
  /-- For a key to be used for signing authentication. -/
  | AuthenticationSigning
  /-- For a key to be used for encrypting messages. -/
  | MessageEncryption
deriving DecidableEq, Repr

/-- The `u32` discriminant of a `CAP26KeyKind` (`TransactionSigning = 1460`,
`AuthenticationSigning = 1678`, `MessageEncryption = 1391`). -/
def CAP26KeyKind.discriminant : CAP26KeyKind → Nat
  | .TransactionSigning => 1460
  | .AuthenticationSigning => 1678
  | .MessageEncryption => 1391

/-- `CAP26KeyKind::is_transaction_signing`: true exactly for `TransactionSigning`.
Modelled from the spec: the accessor lives in the `hierarchical_deterministic`
crate version not present among the sources; the spec fixes its meaning
(`fails WrongKeyKind if key_kind ≠ TransactionSigning`). -/
def CAP26KeyKind.is_transaction_signing : CAP26KeyKind → Bool
  | .TransactionSigning => true
  | _ => false

/-- Modelled from the spec: `NetworkID` (file `network_id.rs` is not among the
sources; the variant list is fixed by the `From<SimpleNetworkID>` conversions in
`entity_address.rs` and the discriminants 1 and 2 by the tests in
`radix_network.rs`; the remaining discriminants are the protocol constants the
closed enumeration carries). -/
inductive NetworkID
  | Mainnet
  | Stokenet
  | Adapanet
  | Kisharnet
  | Nebunet
  | Ansharnet
  | Zabanet
  | Enkinet
  | Hammunet
  | Nergalnet
  | Mardunet
  | Simulator
deriving DecidableEq, Repr

/-- Modelled from the spec: the `u8` discriminant of a `NetworkID`
("closed enumeration with numeric discriminant"; `Mainnet = 1`, `Stokenet = 2`
are pinned by the tests in `radix_network.rs`). -/
def NetworkID.discriminant : NetworkID → Nat
  | .Mainnet => 1
  | .Stokenet => 2
  | .Adapanet => 10
  | .Nebunet => 11
  | .Kisharnet => 12
  | .Ansharnet => 13
  | .Zabanet => 14
  | .Enkinet => 33
  | .Hammunet => 34
  | .Nergalnet => 35
  | .Mardunet => 36
  | .Simulator => 242

/-- The subset of `CommonError` variants (from `common_error.rs` and the error
variants used by the key-construction sources) that the embedded operations
produce. -/
inductive CommonError
  | FailedToDecodeAddressFromBech32
  | MismatchingEntityTypeWhileDecodingAddress
  | MismatchingHRPWhileDecodingAddress
  | UnknownNetworkForID (id : Nat)
  | UnknownNetworkWithName (name : String)
  | WrongEntityKindOfInFactorInstancesPath
  | WrongKeyKindOfTransactionSigningFactorInstance
  | InvalidSecp256k1PublicKeyFromBytes (bytes : List Nat)
  | InvalidSecp256k1PublicKeyPointNotOnCurve
  | InvalidEd25519PrivateKeyFromBytes (bytes : List Nat)
deriving DecidableEq, Repr

/-- The raw input bytes carried by a decoding error, when the variant has a
byte payload (`#[error("...")] Variant(Vec<u8>)` in the Rust error enums). -/
def CommonError.decodingPayload : CommonError → Option (List Nat)
  | .InvalidSecp256k1PublicKeyFromBytes bytes => some bytes
  | .InvalidEd25519PrivateKeyFromBytes bytes => some bytes
  | _ => none

/-- A version of the Radix Network, from `radix_network.rs`: a lowercase
logical name, the canonical `NetworkID`, and a display description. -/
structure RadixNetwork where
  logical_name : String
  id : NetworkID
  display_description : String
deriving DecidableEq, Repr

/-- Modelled from the spec: `id.network_definition().logical_name` — the
engine's `NetworkDefinition` for each network id ("A String identifier (always
lowercase) with the name of the Network"; `mainnet` and `stokenet` are pinned
by the JSON round-trip tests in `radix_network.rs`). -/
def NetworkID.network_definition_logical_name : NetworkID → String
  | .Mainnet => "mainnet"
  | .Stokenet => "stokenet"
  | .Adapanet => "adapanet"
  | .Nebunet => "nebunet"
  | .Kisharnet => "kisharnet"
  | .Ansharnet => "ansharnet"
  | .Zabanet => "zabanet"
  | .Enkinet => "enkinet"
  | .Hammunet => "hammunet"
  | .Nergalnet => "nergalnet"
  | .Mardunet => "mardunet"
  | .Simulator => "simulator"

/-- `RadixNetwork::declare(id, display)`. -/
def RadixNetwork.declare (id : NetworkID) (display : String) : RadixNetwork :=
  { logical_name := id.network_definition_logical_name
    id := id
    display_description := display }

/-- `RadixNetwork::mainnet()`. -/
def RadixNetwork.mainnet : RadixNetwork := .declare .Mainnet "Mainnet"

/-- `RadixNetwork::stokenet()`. -/
def RadixNetwork.stokenet : RadixNetwork := .declare .Stokenet "Stokenet"

/-- `RadixNetwork::nebunet()`. -/
def RadixNetwork.nebunet : RadixNetwork := .declare .Nebunet "Betanet"

/-- `RadixNetwork::kisharnet()`. -/
def RadixNetwork.kisharnet : RadixNetwork := .declare .Kisharnet "RCnet (Test Network)"

/-- `RadixNetwork::ansharnet()`. -/
def RadixNetwork.ansharnet : RadixNetwork := .declare .Ansharnet "RCnet-V2 (Test Network)"

/-- `RadixNetwork::zabanet()`. -/
def RadixNetwork.zabanet : RadixNetwork := .declare .Zabanet "RCnet-V3 (Test Network)"

/-- `RadixNetwork::hammunet()`. -/
def RadixNetwork.hammunet : RadixNetwork := .declare .Hammunet "Hammunet (Test Network)"

/-- `RadixNetwork::enkinet()`. -/
def RadixNetwork.enkinet : RadixNetwork := .declare .Enkinet "Enkinet (Test Network)"

/-- `RadixNetwork::nergalnet()`. -/
def RadixNetwork.nergalnet : RadixNetwork := .declare .Nergalnet "Nergalnet (Test Network)"

/-- `RadixNetwork::mardunet()`. -/
def RadixNetwork.mardunet : RadixNetwork := .declare .Mardunet "Mardunet (Test Network)"

/-- `RadixNetwork::lookup_map()`: the registry of the ten declared networks
(`Simulator`, `Adapanet` are absent, exactly as in the Rust `HashMap::from`). -/
def RadixNetwork.lookup_map : List (NetworkID × RadixNetwork) :=
  [ (.Mainnet, .mainnet)
  , (.Stokenet, .stokenet)
  , (.Nebunet, .nebunet)
  , (.Kisharnet, .kisharnet)
  , (.Ansharnet, .ansharnet)
  , (.Zabanet, .zabanet)
  , (.Hammunet, .hammunet)
  , (.Enkinet, .enkinet)
  , (.Mardunet, .mardunet)
  , (.Nergalnet, .nergalnet) ]

/-- `RadixNetwork::lookup_by_id(id)`: registry hit, or
`UnknownNetworkForID(id.discriminant())`. -/
def RadixNetwork.lookup_by_id (id : NetworkID) : Except CommonError RadixNetwork :=
  match RadixNetwork.lookup_map.find? (fun p => p.1 = id) with
  | some p => .ok p.2
  | none => .error (.UnknownNetworkForID id.discriminant)

/-- `RadixNetwork::lookup_by_name(logical_name)`: finds the id whose network's
logical name matches, else `UnknownNetworkWithName(name)`; on a hit it chains
into `lookup_by_id` exactly as the Rust `and_then` does. -/
def RadixNetwork.lookup_by_name (logical_name : String) : Except CommonError RadixNetwork :=
  match (RadixNetwork.lookup_map.find? (fun p => p.2.logical_name = logical_name)).map (·.1) with
  | some id => RadixNetwork.lookup_by_id id
  | none => .error (.UnknownNetworkWithName logical_name)

end RWK

namespace RWK

/-- C8: the CAP26 entity-kind enumeration has exactly the two values
`Account = 525` and `Identity = 618`, and the CAP26 key-kind enumeration has
exactly the three values `TransactionSigning = 1460`,
`AuthenticationSigning = 1678` and `MessageEncryption = 1391`. -/
theorem cap26_constants_pinned :
    (∀ e : CAP26EntityKind, e = .Account ∨ e = .Identity) ∧
    CAP26EntityKind.Account.discriminant = 525 ∧
    CAP26EntityKind.Identity.discriminant = 618 ∧
    (∀ k : CAP26KeyKind,
      k = .TransactionSigning ∨ k = .AuthenticationSigning ∨ k = .MessageEncryption) ∧
    CAP26KeyKind.TransactionSigning.discriminant = 1460 ∧
    CAP26KeyKind.AuthenticationSigning.discriminant = 1678 ∧
    CAP26KeyKind.MessageEncryption.discriminant = 1391 := by
  refine ⟨fun e => ?_, rfl, rfl, fun k => ?_, rfl, rfl, rfl⟩
  · cases e <;> simp
  · cases k <;> simp

/-- C7: `lookup_by_id` on the `NetworkID` with discriminant 1 (`Mainnet`)
returns the network with logical name `"mainnet"` and display description
`"Mainnet"`; every `NetworkID` absent from the registry map fails with
`UnknownNetworkForID` carrying the unresolved discriminant, and `lookup_by_name`
on a name no registered network carries fails with `UnknownNetworkWithName`
carrying the unresolved name. -/
theorem radix_network_lookup_spec :
    NetworkID.Mainnet.discriminant = 1 ∧
    RadixNetwork.lookup_by_id .Mainnet =
      .ok { logical_name := "mainnet", id := .Mainnet, display_description := "Mainnet" } ∧
    (∀ id : NetworkID, id ∉ RadixNetwork.lookup_map.map Prod.fst →
      RadixNetwork.lookup_by_id id = .error (.UnknownNetworkForID id.discriminant)) ∧
    (∀ name : String,
      (∀ p ∈ RadixNetwork.lookup_map, p.2.logical_name ≠ name) →
      RadixNetwork.lookup_by_name name = .error (.UnknownNetworkWithName name)) := by
  refine ⟨rfl, rfl, fun id hid => ?_, fun name hname => ?_⟩
  · have hfind : RadixNetwork.lookup_map.find? (fun p => p.1 = id) = none := by
      rw [List.find?_eq_none]
      intro p hp
      simp only [decide_eq_true_eq]
      intro h
      exact hid (h ▸ List.mem_map_of_mem Prod.fst hp)
    simp [RadixNetwork.lookup_by_id, hfind]
  · have hfind :
        RadixNetwork.lookup_map.find? (fun p => p.2.logical_name = name) = none := by
      rw [List.find?_eq_none]
      intro p hp
      simp only [decide_eq_true_eq]
      exact hname p hp
    simp [RadixNetwork.lookup_by_name, hfind]

/-- Witness for C7: at the concrete inputs `Simulator` (absent from the
registry) and the name `"x"`, the hypotheses hold and the errors carry the
unresolved keys. -/
theorem radix_network_lookup_spec_witness :
    RadixNetwork.lookup_by_id .Simulator = .error (.UnknownNetworkForID 242) ∧
    RadixNetwork.lookup_by_name "x" = .error (.UnknownNetworkWithName "x") := by
  refine ⟨?_, ?_⟩
  · exact radix_network_lookup_spec.2.2.1 .Simulator (by decide)
  · exact radix_network_lookup_spec.2.2.2 "x" (by decide)

end RWK

namespace RWK

/-- Modelled from the spec: `AccountPath` — a CAP26 entity path whose entity
kind is fixed to `Account` by the variant; carries
`{network_id, key_kind, index}` ("CAP26Path (one variant per entity kind):
{network_id, entity_kind (fixed by variant), key_kind, index}"). -/
structure AccountPath where
  network_id : NetworkID
  key_kind : CAP26KeyKind
  index : Nat
deriving DecidableEq, Repr

/-- Modelled from the spec: `IdentityPath` — the CAP26 entity path whose entity
kind is fixed to `Identity` by the variant. -/
structure IdentityPath where
  network_id : NetworkID
  key_kind : CAP26KeyKind
  index : Nat
deriving DecidableEq, Repr

/-- `CAP26Path`, the typed-per-entity-kind CAP26 path sum (referenced by
`derivation_path.rs`; one variant per entity kind as the spec fixes). -/
inductive CAP26Path
  | accountPath (path : AccountPath)
  | identityPath (path : IdentityPath)
deriving DecidableEq, Repr

/-- Modelled from the spec: the fallible down-cast `CAP26Path::as_account_path`
("a fallible down-cast rather than run-time type inspection"; "a per-curve
down-cast accessor returns an empty result on variant mismatch"). -/
def CAP26Path.as_account_path : CAP26Path → Option AccountPath
  | .accountPath p => some p
  | _ => none

/-- Modelled from the spec: the fallible down-cast `CAP26Path::as_identity_path`. -/
def CAP26Path.as_identity_path : CAP26Path → Option IdentityPath
  | .identityPath p => some p
  | _ => none

/-- The key kind carried by a `CAP26Path` (the `IsEntityPath::key_kind()`
accessor dispatched over the variant). -/
def CAP26Path.key_kind : CAP26Path → CAP26KeyKind
  | .accountPath p => p.key_kind
  | .identityPath p => p.key_kind

/-- `BIP44LikePath`, the legacy untyped path (`m/44H/1022H/0H/0/{index}H`);
only the free index distinguishes two such paths. -/
structure BIP44LikePath where
  index : Nat
deriving DecidableEq, Repr

/-- `DerivationPath`, from `derivation_path.rs`: tagged union
`{CAP26(CAP26Path) | BIP44Like(BIP44LikePath)}`. -/
inductive DerivationPath
  | CAP26 (path : CAP26Path)
  | BIP44Like (path : BIP44LikePath)
deriving DecidableEq, Repr

/-- Modelled from the spec: the fallible down-cast `DerivationPath::as_cap26`. -/
def DerivationPath.as_cap26 : DerivationPath → Option CAP26Path
  | .CAP26 p => some p
  | _ => none

/-- Curve-tagged public key union, from `public_key.rs` files: bytes of the
Ed25519 (32-byte) or compressed secp256k1 (33-byte) encoding. -/
inductive PublicKey
  | ed25519 (bytes : List Nat)
  | secp256k1 (bytes : List Nat)
deriving DecidableEq, Repr

/-- `FactorSourceIDFromHash`: a content-derived id. Modelled from the spec:
`hash(factor-source kind, representative public key)`; for the binding layer it
is an opaque value that is copied through, so it is embedded as its bytes. -/
structure FactorSourceIDFromHash where
  body : List Nat
deriving DecidableEq, Repr

/-- `HierarchicalDeterministicPublicKey`: a public key together with the
derivation path used to derive it (fields as used by
`hd_transaction_signing_factor_instance.rs` and
`hierarchical_deterministic_private_key.rs`). -/
structure HierarchicalDeterministicPublicKey where
  public_key : PublicKey
  derivation_path : DerivationPath
deriving DecidableEq, Repr

/-- `HierarchicalDeterministicFactorInstance`: `{factor_source_id, public_key}`
with the path provenance inside the HD public key (fields as read by
`HDFactorInstanceTransactionSigning::try_from`). -/
structure HierarchicalDeterministicFactorInstance where
  factor_source_id : FactorSourceIDFromHash
  public_key : HierarchicalDeterministicPublicKey
deriving DecidableEq, Repr

/-- `HierarchicalDeterministicFactorInstance::derivation_path()`. -/
def HierarchicalDeterministicFactorInstance.derivation_path
    (i : HierarchicalDeterministicFactorInstance) : DerivationPath :=
  i.public_key.derivation_path

/-- `HDFactorInstanceTransactionSigning<E>`, from
`hd_transaction_signing_factor_instance.rs`: `{factor_source_id, public_key,
path : E}`, constructible only through `try_from`. -/
structure HDFactorInstanceTransactionSigning (E : Type) where
  factor_source_id : FactorSourceIDFromHash
  public_key : PublicKey
  path : E
deriving DecidableEq, Repr

/-- `HDFactorInstanceTransactionSigning::<E>::try_from(hd_factor_instance,
extract)`: down-casts the raw instance's path via `as_cap26` and `extract`;
`WrongEntityKindOfInFactorInstancesPath` when the down-cast fails,
`WrongKeyKindOfTransactionSigningFactorInstance` when the extracted path's key
kind is not transaction signing, otherwise the validated instance carrying the
raw instance's factor source id, public key and extracted path. -/
def HDFactorInstanceTransactionSigning.try_from {E : Type}
    (hd_factor_instance : HierarchicalDeterministicFactorInstance)
    (extract : CAP26Path → Option E) (key_kind_of : E → CAP26KeyKind) :
    Except CommonError (HDFactorInstanceTransactionSigning E) :=
  match hd_factor_instance.derivation_path.as_cap26.bind extract with
  | some path =>
    if ¬ (key_kind_of path).is_transaction_signing then
      .error .WrongKeyKindOfTransactionSigningFactorInstance
    else
      .ok { factor_source_id := hd_factor_instance.factor_source_id
            public_key := hd_factor_instance.public_key.public_key
            path := path }
  | none => .error .WrongEntityKindOfInFactorInstancesPath

/-- `HDFactorInstanceAccountCreation::new(hd_factor_instance)`:
`try_from` with the `as_account_path` extractor. -/
def HDFactorInstanceAccountCreation.new
    (hd_factor_instance : HierarchicalDeterministicFactorInstance) :
    Except CommonError (HDFactorInstanceTransactionSigning AccountPath) :=
  HDFactorInstanceTransactionSigning.try_from hd_factor_instance
    CAP26Path.as_account_path AccountPath.key_kind

/-- `HDFactorInstanceIdentityCreation::new(hd_factor_instance)`:
`try_from` with the `as_identity_path` extractor. -/
def HDFactorInstanceIdentityCreation.new
    (hd_factor_instance : HierarchicalDeterministicFactorInstance) :
    Except CommonError (HDFactorInstanceTransactionSigning IdentityPath) :=
  HDFactorInstanceTransactionSigning.try_from hd_factor_instance
    CAP26Path.as_identity_path IdentityPath.key_kind

end RWK

namespace RWK

/-- C1: for every raw HD factor instance, `HDFactorInstanceAccountCreation::new`
fails `WrongEntityKindOfInFactorInstancesPath` when the derivation path is an
`IdentityPath` or a BIP44-like path, fails
`WrongKeyKindOfTransactionSigningFactorInstance` when it is an `AccountPath`
whose key kind is not `TransactionSigning`, and on an `AccountPath` with
`TransactionSigning` succeeds with the instance's factor source id, public key
and path; symmetrically for `HDFactorInstanceIdentityCreation::new` with
`IdentityPath`. -/
theorem hd_factor_instance_binding_spec :
    ∀ i : HierarchicalDeterministicFactorInstance,
    (∀ p, i.derivation_path = .CAP26 (.identityPath p) →
      HDFactorInstanceAccountCreation.new i =
        .error .WrongEntityKindOfInFactorInstancesPath) ∧
    (∀ b, i.derivation_path = .BIP44Like b →
      HDFactorInstanceAccountCreation.new i =
        .error .WrongEntityKindOfInFactorInstancesPath ∧
      HDFactorInstanceIdentityCreation.new i =
        .error .WrongEntityKindOfInFactorInstancesPath) ∧
    (∀ p, i.derivation_path = .CAP26 (.accountPath p) →
      p.key_kind ≠ .TransactionSigning →
      HDFactorInstanceAccountCreation.new i =
        .error .WrongKeyKindOfTransactionSigningFactorInstance) ∧
    (∀ p, i.derivation_path = .CAP26 (.accountPath p) →
      p.key_kind = .TransactionSigning →
      HDFactorInstanceAccountCreation.new i =
        .ok { factor_source_id := i.factor_source_id
              public_key := i.public_key.public_key
              path := p }) ∧
    (∀ p, i.derivation_path = .CAP26 (.accountPath p) →
      HDFactorInstanceIdentityCreation.new i =
        .error .WrongEntityKindOfInFactorInstancesPath) ∧
    (∀ p, i.derivation_path = .CAP26 (.identityPath p) →
      p.key_kind ≠ .TransactionSigning →
      HDFactorInstanceIdentityCreation.new i =
        .error .WrongKeyKindOfTransactionSigningFactorInstance) ∧
    (∀ p, i.derivation_path = .CAP26 (.identityPath p) →
      p.key_kind = .TransactionSigning →
      HDFactorInstanceIdentityCreation.new i =
        .ok { factor_source_id := i.factor_source_id
              public_key := i.public_key.public_key
              path := p }) := by
  intro i
  refine ⟨?_, ?_, ?_, ?_, ?_, ?_, ?_⟩
  · intro p hp
    simp [HDFactorInstanceAccountCreation.new, HDFactorInstanceTransactionSigning.try_from,
      hp, DerivationPath.as_cap26, CAP26Path.as_account_path]
  · intro b hb
    constructor <;>
      simp [HDFactorInstanceAccountCreation.new, HDFactorInstanceIdentityCreation.new,
        HDFactorInstanceTransactionSigning.try_from, hb, DerivationPath.as_cap26]
  · intro p hp hk
    have : p.key_kind.is_transaction_signing = false := by
      cases hkk : p.key_kind <;> simp_all [CAP26KeyKind.is_transaction_signing]
    simp [HDFactorInstanceAccountCreation.new, HDFactorInstanceTransactionSigning.try_from,
      hp, DerivationPath.as_cap26, CAP26Path.as_account_path, this]
  · intro p hp hk
    simp [HDFactorInstanceAccountCreation.new, HDFactorInstanceTransactionSigning.try_from,
      hp, DerivationPath.as_cap26, CAP26Path.as_account_path, hk,
      CAP26KeyKind.is_transaction_signing]
  · intro p hp
    simp [HDFactorInstanceIdentityCreation.new, HDFactorInstanceTransactionSigning.try_from,
      hp, DerivationPath.as_cap26, CAP26Path.as_identity_path]
  · intro p hp hk
    have : p.key_kind.is_transaction_signing = false := by
      cases hkk : p.key_kind <;> simp_all [CAP26KeyKind.is_transaction_signing]
    simp [HDFactorInstanceIdentityCreation.new, HDFactorInstanceTransactionSigning.try_from,
      hp, DerivationPath.as_cap26, CAP26Path.as_identity_path, this]
  · intro p hp hk
    simp [HDFactorInstanceIdentityCreation.new, HDFactorInstanceTransactionSigning.try_from,
      hp, DerivationPath.as_cap26, CAP26Path.as_identity_path, hk,
      CAP26KeyKind.is_transaction_signing]

/-- Witness for C1: three concrete raw instances — an `AccountPath` with
`TransactionSigning` (success carrying the instance's data), an `AccountPath`
with `AuthenticationSigning` (wrong key kind), and an `IdentityPath` handed to
account creation (wrong entity kind). -/
theorem hd_factor_instance_binding_spec_witness :
    (HDFactorInstanceAccountCreation.new
      { factor_source_id := ⟨[7]⟩
        public_key := ⟨.ed25519 [1, 2], .CAP26 (.accountPath ⟨.Mainnet, .TransactionSigning, 0⟩)⟩ } =
      .ok { factor_source_id := ⟨[7]⟩
            public_key := .ed25519 [1, 2]
            path := ⟨.Mainnet, .TransactionSigning, 0⟩ }) ∧
    (HDFactorInstanceAccountCreation.new
      { factor_source_id := ⟨[7]⟩
        public_key := ⟨.ed25519 [1, 2], .CAP26 (.accountPath ⟨.Mainnet, .AuthenticationSigning, 0⟩)⟩ } =
      .error .WrongKeyKindOfTransactionSigningFactorInstance) ∧
    (HDFactorInstanceAccountCreation.new
      { factor_source_id := ⟨[7]⟩
        public_key := ⟨.ed25519 [1, 2], .CAP26 (.identityPath ⟨.Mainnet, .TransactionSigning, 0⟩)⟩ } =
      .error .WrongEntityKindOfInFactorInstancesPath) := by
  refine ⟨?_, ?_, ?_⟩
  · exact (hd_factor_instance_binding_spec _).2.2.2.1 _ rfl rfl
  · exact (hd_factor_instance_binding_spec _).2.2.1 _ rfl (by decide)
  · exact (hd_factor_instance_binding_spec _).1 _ rfl

end RWK

namespace RWK

/-- `UnsecuredEntityControl`: `{entity_index : u32,
transaction_signing_factor_instance}` (fields as read by `Ord for Account` and
built by `Account::with_values`). -/
structure UnsecuredEntityControl where
  entity_index : Nat
  transaction_signing_factor_instance : HierarchicalDeterministicFactorInstance
deriving DecidableEq, Repr

/-- `EntitySecurityState`: open sum type, today only `Unsecured`. -/
inductive EntitySecurityState
  | Unsecured (control : UnsecuredEntityControl)
deriving DecidableEq, Repr

/-- `AccountAddress`: the bech32 address string (as its character list) plus
the network id it was decoded/derived for (fields as read by
`Account::with_values`). -/
structure AccountAddress where
  address : List Char
  network_id : NetworkID
deriving DecidableEq, Repr

/-- `DisplayName`: the validated display-name string. -/
structure DisplayName where
  value : String
deriving DecidableEq, Repr

/-- `AppearanceID`: the validated appearance id value. -/
structure AppearanceID where
  value : Nat
deriving DecidableEq, Repr

/-- `EntityFlag`: off-ledger user flags on an entity. -/
inductive EntityFlag
  | DeletedByUser
deriving DecidableEq, Repr

/-- `DepositRule`: the third-party deposit rule constants. -/
inductive DepositRule
  | AcceptAll
  | DenyAll
  | AcceptKnown
deriving DecidableEq, Repr

/-- `OnLedgerSettings`: on-ledger synced account settings; for the account
constructor only the deposit rule of its `ThirdPartyDeposits` default matters. -/
structure OnLedgerSettings where
  deposit_rule : DepositRule
deriving DecidableEq, Repr

/-- `Account`, from `account.rs`: network id, address, display metadata,
security state, appearance id, flags and on-ledger settings. -/
structure Account where
  network_id : NetworkID
  address : AccountAddress
  display_name : DisplayName
  security_state : EntitySecurityState
  appearance_id : AppearanceID
  flags : List EntityFlag
  on_ledger_settings : OnLedgerSettings
deriving DecidableEq, Repr

/-- `HierarchicalDeterministicFactorInstance::placeholder()` from `account.rs`:
its body is `todo!()` (the real construction is commented out), so the call
panics unconditionally — embedded as `none`. -/
def HierarchicalDeterministicFactorInstance.placeholder :
    Option HierarchicalDeterministicFactorInstance :=
  none

/-- `Account::with_values(address, display_name, appearance_id)`: builds the
account record whose security state wraps
`HierarchicalDeterministicFactorInstance::placeholder()` at entity index 0;
a panic inside the construction is embedded as `none`. -/
def Account.with_values (address : AccountAddress) (display_name : DisplayName)
    (appearance_id : AppearanceID) : Option Account :=
  HierarchicalDeterministicFactorInstance.placeholder.map (fun fi =>
    { network_id := address.network_id
      address := address
      display_name := display_name
      appearance_id := appearance_id
      flags := []
      on_ledger_settings := { deposit_rule := .AcceptAll }
      security_state := .Unsecured ⟨0, fi⟩ })

/-- C2: `Account::with_values` never returns a value — for every address,
display name and appearance id it reaches the unconditional panic (`todo!()`)
inside `HierarchicalDeterministicFactorInstance::placeholder()`. -/
theorem account_with_values_always_panics :
    ∀ (address : AccountAddress) (display_name : DisplayName)
      (appearance_id : AppearanceID),
    Account.with_values address display_name appearance_id = none := by
  intro address display_name appearance_id
  rfl

/-- `Ord for Account`: comparison matches on the two security states and
compares the `entity_index` of the `Unsecured` controls. -/
def Account.cmp (a b : Account) : Ordering :=
  match a.security_state, b.security_state with
  | .Unsecured l, .Unsecured r => compare l.entity_index r.entity_index

/-- The entity index held in an account's (sole) `Unsecured` security state. -/
def Account.entity_index (a : Account) : Nat :=
  match a.security_state with
  | .Unsecured c => c.entity_index

/-- C9: the ordering of two accounts equals the comparison of their
`entity_index` values alone, and any two accounts with equal entity indices
compare identically against every third account — no other field (address,
network id, display metadata, factor instance) influences the order. -/
theorem account_ord_compares_entity_index_only :
    (∀ a b : Account, Account.cmp a b = compare a.entity_index b.entity_index) ∧
    (∀ a a' b : Account, a.entity_index = a'.entity_index →
      Account.cmp a b = Account.cmp a' b ∧ Account.cmp b a = Account.cmp b a') := by
  constructor
  · intro a b
    cases ha : a.security_state with
    | Unsecured l =>
      cases hb : b.security_state with
      | Unsecured r =>
        simp [Account.cmp, Account.entity_index, ha, hb]
  · intro a a' b hidx
    cases ha : a.security_state with
    | Unsecured l =>
      cases ha' : a'.security_state with
      | Unsecured l' =>
        cases hb : b.security_state with
        | Unsecured r =>
          simp only [Account.entity_index, ha, ha'] at hidx
          constructor <;> simp [Account.cmp, ha, ha', hb, hidx]

/-- Witness for C9: two concrete accounts sharing entity index 1 but differing
in address, network id and display name compare equally against a third with
entity index 0. -/
theorem account_ord_compares_entity_index_only_witness :
    Account.cmp
      { network_id := .Mainnet
        address := ⟨['a'], .Mainnet⟩
        display_name := ⟨"x"⟩
        security_state := .Unsecured ⟨1, ⟨⟨[1]⟩, ⟨.ed25519 [1], .BIP44Like ⟨0⟩⟩⟩⟩
        appearance_id := ⟨0⟩
        flags := []
        on_ledger_settings := ⟨.AcceptAll⟩ }
      { network_id := .Mainnet
        address := ⟨['c'], .Mainnet⟩
        display_name := ⟨"z"⟩
        security_state := .Unsecured ⟨0, ⟨⟨[3]⟩, ⟨.ed25519 [3], .BIP44Like ⟨2⟩⟩⟩⟩
        appearance_id := ⟨2⟩
        flags := []
        on_ledger_settings := ⟨.AcceptAll⟩ } =
    Account.cmp
      { network_id := .Stokenet
        address := ⟨['b'], .Stokenet⟩
        display_name := ⟨"y"⟩
        security_state := .Unsecured ⟨1, ⟨⟨[2]⟩, ⟨.ed25519 [2], .BIP44Like ⟨1⟩⟩⟩⟩
        appearance_id := ⟨1⟩
        flags := [.DeletedByUser]
        on_ledger_settings := ⟨.DenyAll⟩ }
      { network_id := .Mainnet
        address := ⟨['c'], .Mainnet⟩
        display_name := ⟨"z"⟩
        security_state := .Unsecured ⟨0, ⟨⟨[3]⟩, ⟨.ed25519 [3], .BIP44Like ⟨2⟩⟩⟩⟩
        appearance_id := ⟨2⟩
        flags := []
        on_ledger_settings := ⟨.AcceptAll⟩ } := by
  exact (account_ord_compares_entity_index_only.2 _ _ _ rfl).1

end RWK

namespace RWK

/-- Big-endian bytes to a natural number. -/
def beBytesToNat (bytes : List Nat) : Nat :=
  bytes.foldl (fun acc b => acc * 256 + b) 0

/-- Modular exponentiation by squaring, fuelled by the bit length of the
exponent (fuel 257 suffices for 256-bit exponents). -/
def powMod : Nat → Nat → Nat → Nat → Nat
  | 0, _, _, m => 1 % m
  | fuel + 1, b, e, m =>
    if e = 0 then 1 % m
    else
      let h := powMod fuel ((b * b) % m) (e / 2) m
      if e % 2 = 1 then (h * b) % m else h

/-- The secp256k1 field prime `2^256 - 2^32 - 977`. -/
def secp_p : Nat := 2 ^ 256 - 2 ^ 32 - 977

/-- Whether `a` has a square root modulo `secp_p` (computed as
`(a^((p+1)/4))^2 ≡ a`, valid because `secp_p ≡ 3 (mod 4)`): the curve-membership
test for a decompressed x-coordinate. -/
def secp256k1_has_sqrt (a : Nat) : Bool :=
  let r := powMod 257 (a % secp_p) ((secp_p + 1) / 4) secp_p
  (r * r) % secp_p == a % secp_p

/-- `bip32::secp256k1::PublicKey::from_sec1_bytes` validity on a 33-byte input
(the external k256 SEC1 decoder the source delegates the point-on-curve check
to): the tag must be `02`/`03`, the x-coordinate must be a canonical field
element, and `x^3 + 7` must be a square modulo the field prime. -/
def bip32_from_sec1_valid (bytes : List Nat) : Bool :=
  match bytes with
  | tag :: rest =>
    (tag == 2 || tag == 3) && rest.length == 32 &&
      (let x := beBytesToNat rest
       decide (x < secp_p) && secp256k1_has_sqrt ((powMod 4 x 3 secp_p + 7) % secp_p))
  | [] => false

/-- A secp256k1 public key holding the compressed 33-byte encoding, from
`secp256k1/public_key.rs`. -/
structure Secp256k1PublicKey where
  value : List Nat
deriving DecidableEq, Repr

/-- `radix_engine_common::crypto::Secp256k1PublicKey::try_from(&[u8])` (the
external engine wrapper the source calls first): accepts exactly 33 bytes. -/
def engine_secp256k1_try_from (bytes : List Nat) : Option (List Nat) :=
  if bytes.length = 33 then some bytes else none

/-- `Secp256k1PublicKey::from_engine(engine)`: runs the SEC1 point decoder and
fails `InvalidSecp256k1PublicKeyPointNotOnCurve` (no payload) when the 33
engine bytes are not a valid compressed curve point. -/
def Secp256k1PublicKey.from_engine (engine : List Nat) :
    Except CommonError Secp256k1PublicKey :=
  if bip32_from_sec1_valid engine then .ok ⟨engine⟩
  else .error .InvalidSecp256k1PublicKeyPointNotOnCurve

/-- `Secp256k1PublicKey::from_bytes(bytes)`: engine length gate failing
`InvalidSecp256k1PublicKeyFromBytes(bytes)`, then `from_engine`. -/
def Secp256k1PublicKey.from_bytes (bytes : List Nat) :
    Except CommonError Secp256k1PublicKey :=
  match engine_secp256k1_try_from bytes with
  | none => .error (.InvalidSecp256k1PublicKeyFromBytes bytes)
  | some engine => Secp256k1PublicKey.from_engine engine

/-- An Ed25519 private key holding its 32 seed bytes, from
`ed25519/private_key.rs`. -/
structure Ed25519PrivateKey where
  bytes : List Nat
deriving DecidableEq, Repr

/-- `Ed25519PrivateKey::from_bytes(slice)`: the engine accepts exactly 32
bytes; otherwise `InvalidEd25519PrivateKeyFromBytes(slice)`. -/
def Ed25519PrivateKey.from_bytes (slice : List Nat) :
    Except CommonError Ed25519PrivateKey :=
  if slice.length = 32 then .ok ⟨slice⟩
  else .error (.InvalidEd25519PrivateKeyFromBytes slice)

/-- The 33-byte input of the repository's own `invalid_key_not_on_curve` test:
`99` followed by eight repetitions of `deadbeef`. -/
def notOnCurveTestBytes : List Nat :=
  0x99 :: (List.replicate 8 [0xde, 0xad, 0xbe, 0xef]).flatten

/-- Counterexample to C6: the 33-byte input `99deadbeef...ef` is rejected by
`Secp256k1PublicKey::from_bytes` with
`InvalidSecp256k1PublicKeyPointNotOnCurve`, an error that carries no byte
payload — so not every rejection carries the rejected input bytes. -/
theorem key_error_payload_counterexample :
    Secp256k1PublicKey.from_bytes notOnCurveTestBytes =
      .error .InvalidSecp256k1PublicKeyPointNotOnCurve ∧
    CommonError.decodingPayload .InvalidSecp256k1PublicKeyPointNotOnCurve = none := by
  constructor
  · rfl
  · rfl

/-- C6 amended: every rejection by `Secp256k1PublicKey::from_bytes` is either
the typed decoding error `InvalidSecp256k1PublicKeyFromBytes` carrying the
rejected bytes, or the payload-free `InvalidSecp256k1PublicKeyPointNotOnCurve`
from the curve-membership check; every rejection by
`Ed25519PrivateKey::from_bytes` is `InvalidEd25519PrivateKeyFromBytes` carrying
the rejected bytes. -/
theorem key_error_payload_spec :
    (∀ (bytes : List Nat) (e : CommonError),
      Secp256k1PublicKey.from_bytes bytes = .error e →
      (e = .InvalidSecp256k1PublicKeyFromBytes bytes ∧ e.decodingPayload = some bytes) ∨
      e = .InvalidSecp256k1PublicKeyPointNotOnCurve) ∧
    (∀ (bytes : List Nat) (e : CommonError),
      Ed25519PrivateKey.from_bytes bytes = .error e →
      e = .InvalidEd25519PrivateKeyFromBytes bytes ∧ e.decodingPayload = some bytes) := by
  constructor
  · intro bytes e herr
    unfold Secp256k1PublicKey.from_bytes engine_secp256k1_try_from at herr
    by_cases hlen : bytes.length = 33
    · right
      simp only [hlen, if_pos rfl] at herr
      unfold Secp256k1PublicKey.from_engine at herr
      by_cases hvalid : bip32_from_sec1_valid bytes
      · simp [hvalid] at herr
      · simp [hvalid] at herr
        exact herr.symm
    · left
      simp only [hlen, if_neg] at herr
      simp at herr
      subst herr
      exact ⟨rfl, rfl⟩
  · intro bytes e herr
    unfold Ed25519PrivateKey.from_bytes at herr
    by_cases hlen : bytes.length = 32
    · simp [hlen] at herr
    · simp [hlen] at herr
      subst herr
      exact ⟨rfl, rfl⟩

/-- Witness for C6 (amended): the 1-byte input `[0]` is rejected by both
constructors with errors that carry exactly the rejected bytes. -/
theorem key_error_payload_spec_witness :
    (Secp256k1PublicKey.from_bytes [0] =
      .error (.InvalidSecp256k1PublicKeyFromBytes [0])) ∧
    (CommonError.InvalidSecp256k1PublicKeyFromBytes [0]).decodingPayload = some [0] ∧
    (Ed25519PrivateKey.from_bytes [0] =
      .error (.InvalidEd25519PrivateKeyFromBytes [0])) ∧
    (CommonError.InvalidEd25519PrivateKeyFromBytes [0]).decodingPayload = some [0] := by
  have hs : Secp256k1PublicKey.from_bytes [0] =
      .error (.InvalidSecp256k1PublicKeyFromBytes [0]) := rfl
  have he : Ed25519PrivateKey.from_bytes [0] =
      .error (.InvalidEd25519PrivateKeyFromBytes [0]) := rfl
  refine ⟨hs, ?_, he, ?_⟩
  · exact ((key_error_payload_spec.1 [0] _ hs).resolve_right (by decide)).2
  · exact (key_error_payload_spec.2 [0] _ he).2

end RWK

namespace RWK

/-- `AbstractEntityType`, as matched by `EntityAddress::from_public_key`. -/
inductive AbstractEntityType
  | Account
  | Identity
  | Resource
deriving DecidableEq, Repr

/-- The entity-kind-specific human-readable part lead of an address
(`"account_..."`, `"identity_"`, `"resource_..."` as in the address literals and
doc comments of the sources). -/
def AbstractEntityType.hrp : AbstractEntityType → List Char
  | .Account => ['a', 'c', 'c', 'o', 'u', 'n', 't', '_']
  | .Identity => ['i', 'd', 'e', 'n', 't', 'i', 't', 'y', '_']
  | .Resource => ['r', 'e', 's', 'o', 'u', 'r', 'c', 'e', '_']

/-- Modelled from the spec: the entity-kind-specific derivation constant — the
leading entity-type byte of a virtual component node id ("computes a
deterministic virtual component id from the public key using
entity-kind-specific derivation constants"). -/
def AbstractEntityType.nodeIdByte : AbstractEntityType → Nat
  | .Account => 209
  | .Identity => 210
  | .Resource => 93

/-- The raw encoding bytes of a curve-tagged public key. -/
def PublicKey.bytes : PublicKey → List Nat
  | .ed25519 b => b
  | .secp256k1 b => b

/-- Modelled from the spec: the toolkit's
`virtual_account_address_from_public_key` /
`virtual_identity_address_from_public_key` — a deterministic virtual component
node id: the entity-kind-specific constant byte followed by a digest of the
public key (the digest is modelled as the key's encoding bytes). -/
def virtualComponentNodeId (kind : AbstractEntityType) (public_key : PublicKey) :
    List Nat :=
  kind.nodeIdByte :: public_key.bytes

/-- Modelled from the spec: the network-specific HRP segment of a bech32
address ("entity-kind-specific HRP + network-specific segment + encoded
payload"); one distinct segment per network, none containing the bech32
separator `'1'`. -/
def networkHrpSuffix : NetworkID → List Char
  | .Mainnet => ['r', 'd', 'x']
  | .Stokenet => ['s', 't', 'o', 'k']
  | .Adapanet => ['a', 'd', 'a', 'p', 'a']
  | .Nebunet => ['n', 'e', 'b', 'u']
  | .Kisharnet => ['k', 'i', 's', 'h', 'a', 'r']
  | .Ansharnet => ['a', 'n', 's', 'h', 'a', 'r']
  | .Zabanet => ['z', 'a', 'b', 'a']
  | .Enkinet => ['e', 'n', 'k', 'i']
  | .Hammunet => ['h', 'a', 'm', 'm', 'u']
  | .Nergalnet => ['n', 'e', 'r', 'g', 'a', 'l']
  | .Mardunet => ['m', 'a', 'r', 'd', 'u']
  | .Simulator => ['s', 'i', 'm']

/-- The lowercase hex digit for a value below 16. -/
def hexDigitChar (n : Nat) : Char :=
  if n < 10 then Char.ofNat (48 + n) else Char.ofNat (87 + n)

/-- One data byte rendered as two hex digits. -/
def byteToHex (b : Nat) : List Char :=
  [hexDigitChar (b / 16 % 16), hexDigitChar (b % 16)]

/-- Modelled from the spec: the encoded payload of the address ("encoded
payload"; the bech32 data codec is an external primitive, embedded as a
byte-to-digit-pair codec). -/
def bytesToDataPart (bytes : List Nat) : List Char :=
  (bytes.map byteToHex).flatten

/-- The value of a hex digit character, if it is one. -/
def hexDigitVal (c : Char) : Option Nat :=
  let n := c.toNat
  if 48 ≤ n ∧ n ≤ 57 then some (n - 48)
  else if 97 ≤ n ∧ n ≤ 102 then some (n - 87)
  else none

/-- Inverse of `bytesToDataPart`: decodes digit pairs, rejecting anything that
is not well-formed. -/
def dataPartToBytes : List Char → Option (List Nat)
  | [] => some []
  | c1 :: c2 :: rest =>
    match hexDigitVal c1, hexDigitVal c2, dataPartToBytes rest with
    | some h, some l, some bs => some ((16 * h + l) :: bs)
    | _, _, _ => none
  | [_] => none

/-- Drops the pattern from the front of a character list, or fails when the
list does not begin with it. -/
def stripLead : List Char → List Char → Option (List Char)
  | [], rest => some rest
  | _ :: _, [] => none
  | p :: ps, c :: cs => if p = c then stripLead ps cs else none

/-- `str::starts_with` on character lists. -/
def listHasLead (pat s : List Char) : Bool :=
  (stripLead pat s).isSome

/-- The entity type named by a node id's leading byte, if any. -/
def entityTypeFromByte (b : Nat) : Option AbstractEntityType :=
  if b = 209 then some .Account
  else if b = 210 then some .Identity
  else if b = 93 then some .Resource
  else none

/-- The network whose HRP segment this is, if any. -/
def suffixToNetwork (s : List Char) : Option NetworkID :=
  if s = networkHrpSuffix .Mainnet then some .Mainnet
  else if s = networkHrpSuffix .Stokenet then some .Stokenet
  else if s = networkHrpSuffix .Adapanet then some .Adapanet
  else if s = networkHrpSuffix .Nebunet then some .Nebunet
  else if s = networkHrpSuffix .Kisharnet then some .Kisharnet
  else if s = networkHrpSuffix .Ansharnet then some .Ansharnet
  else if s = networkHrpSuffix .Zabanet then some .Zabanet
  else if s = networkHrpSuffix .Enkinet then some .Enkinet
  else if s = networkHrpSuffix .Hammunet then some .Hammunet
  else if s = networkHrpSuffix .Nergalnet then some .Nergalnet
  else if s = networkHrpSuffix .Mardunet then some .Mardunet
  else if s = networkHrpSuffix .Simulator then some .Simulator
  else none

/-- Strips whichever entity-kind HRP lead the address HRP begins with. -/
def stripAnyEntityHrp (hrp : List Char) : Option (List Char) :=
  match stripLead AbstractEntityType.Account.hrp hrp with
  | some rest => some rest
  | none =>
    match stripLead AbstractEntityType.Identity.hrp hrp with
    | some rest => some rest
    | none => stripLead AbstractEntityType.Resource.hrp hrp

/-- The network recovered from an address HRP: entity lead stripped, then the
network segment matched exactly. -/
def networkFromHrp (hrp : List Char) : Option NetworkID :=
  (stripAnyEntityHrp hrp).bind suffixToNetwork

/-- Splits a character list at the first occurrence of the bech32 separator
`'1'`, keeping the separator with the tail. -/
def splitAtSep : List Char → List Char × List Char
  | [] => ([], [])
  | c :: cs =>
    if c = '1' then ([], c :: cs)
    else
      let p := splitAtSep cs
      (c :: p.1, p.2)

/-- Modelled from the spec: `decode_address(s)` (the repository's
`decode_address_helper.rs` is not among the sources) — "decodes, recovers
(network_id, entity_kind, hrp)" and "fails FailedToDecodeAddressFromBech32 on
malformed input": splits at the bech32 separator, decodes the payload, reads
the entity kind off the node id's leading byte and the network off the HRP;
every malformed input fails with `FailedToDecodeAddressFromBech32`. -/
def decode_address (s : List Char) :
    Except CommonError (NetworkID × AbstractEntityType × List Char × List Nat) :=
  match splitAtSep s with
  | (_, []) => .error .FailedToDecodeAddressFromBech32
  | (hrpPart, _ :: dataPart) =>
    match dataPartToBytes dataPart with
    | none => .error .FailedToDecodeAddressFromBech32
    | some [] => .error .FailedToDecodeAddressFromBech32
    | some (b :: body) =>
      match entityTypeFromByte b with
      | none => .error .FailedToDecodeAddressFromBech32
      | some entity_type =>
        match networkFromHrp hrpPart with
        | none => .error .FailedToDecodeAddressFromBech32
        | some network_id => .ok (network_id, entity_type, hrpPart, b :: body)

/-- The outcome of an address decode: a value, a recoverable typed error, or
the process abort raised by the `assert!` invariant check. -/
inductive AddressOutcome (α : Type)
  | ok (value : α)
  | err (error : CommonError)
  | fatal
deriving DecidableEq, Repr

/-- `EntityAddress::from_public_key(public_key, network_id)` with
`Self::entity_type() = kind`: virtual component node id by entity kind
(`panic!` for `Resource`, embedded as `none`), network id embedded, rendered as
the bech32 string, handed to `__with_address_and_network_id`. -/
def EntityAddress.from_public_key (kind : AbstractEntityType)
    (public_key : PublicKey) (network_id : NetworkID) :
    Option (List Char × NetworkID) :=
  match kind with
  | .Resource => none
  | _ =>
    let component := virtualComponentNodeId kind public_key
    let address := kind.hrp ++ networkHrpSuffix network_id ++
      '1' :: bytesToDataPart component
    some (address, network_id)

/-- `EntityAddress::try_from_bech32(s)` with `Self::entity_type() = expected`:
decode, reject a mismatching entity type with
`MismatchingEntityTypeWhileDecodingAddress`, `assert!` that the HRP starts with
the entity type's HRP (failure is the fatal outcome), then
`__with_address_and_network_id(s, network_id)`. -/
def EntityAddress.try_from_bech32 (expected : AbstractEntityType)
    (s : List Char) : AddressOutcome (List Char × NetworkID) :=
  match decode_address s with
  | .error e => .err e
  | .ok (network_id, entity_type, hrp, _) =>
    if entity_type ≠ expected then
      .err .MismatchingEntityTypeWhileDecodingAddress
    else if listHasLead entity_type.hrp hrp then
      .ok (s, network_id)
    else
      .fatal

end RWK

namespace RWK

/-- Stripping a list's own lead succeeds with the remainder. -/
theorem stripLead_append (a b : List Char) : stripLead a (a ++ b) = some b := by
  induction a with
  | nil => rfl
  | cons p ps ih => simp [stripLead, ih]

/-- `listHasLead` holds of a list against its own lead. -/
theorem listHasLead_append (a b : List Char) : listHasLead a (a ++ b) = true := by
  simp [listHasLead, stripLead_append]

/-- Splitting `a ++ '1' :: b` at the separator yields `(a, '1' :: b)` when `a`
avoids the separator. -/
theorem splitAtSep_append (a b : List Char) (h : '1' ∉ a) :
    splitAtSep (a ++ '1' :: b) = (a, '1' :: b) := by
  induction a with
  | nil => simp [splitAtSep]
  | cons c cs ih =>
    simp only [List.mem_cons, not_or] at h
    have hne : c ≠ '1' := fun hc => h.1 hc.symm
    simp [splitAtSep, hne, ih h.2]

/-- Hex digit characters decode back to their value. -/
theorem hexDigitVal_hexDigitChar : ∀ n < 16, hexDigitVal (hexDigitChar n) = some n := by
  decide

/-- One encoding step of the payload codec. -/
theorem bytesToDataPart_cons (b : Nat) (bs : List Nat) :
    bytesToDataPart (b :: bs) =
      hexDigitChar (b / 16 % 16) :: hexDigitChar (b % 16) :: bytesToDataPart bs := rfl

/-- The payload codec round-trips on byte lists. -/
theorem dataPart_roundtrip :
    ∀ bytes : List Nat, (∀ b ∈ bytes, b < 256) →
    dataPartToBytes (bytesToDataPart bytes) = some bytes := by
  intro bytes h
  induction bytes with
  | nil => rfl
  | cons b bs ih =>
    have hb : b < 256 := h b (List.mem_cons_self b bs)
    have h1 : hexDigitVal (hexDigitChar (b / 16 % 16)) = some (b / 16 % 16) :=
      hexDigitVal_hexDigitChar _ (by omega)
    have h2 : hexDigitVal (hexDigitChar (b % 16)) = some (b % 16) :=
      hexDigitVal_hexDigitChar _ (by omega)
    have ihr := ih (fun x hx => h x (List.mem_cons_of_mem b hx))
    rw [bytesToDataPart_cons]
    simp only [dataPartToBytes, h1, h2, ihr]
    have harith : 16 * (b / 16 % 16) + b % 16 = b := by omega
    rw [harith]

/-- No entity-kind HRP followed by a network segment contains the separator. -/
theorem hrp_no_separator :
    ∀ (et : AbstractEntityType) (n : NetworkID),
    '1' ∉ et.hrp ++ networkHrpSuffix n := by
  intro et n
  cases et <;> cases n <;> decide

/-- The network is recovered exactly from an entity HRP plus its segment. -/
theorem networkFromHrp_recover :
    ∀ (et : AbstractEntityType) (n : NetworkID),
    networkFromHrp (et.hrp ++ networkHrpSuffix n) = some n := by
  intro et n
  cases et <;> cases n <;> decide

/-- Decoding an encoded virtual address recovers the network, the entity type
named by the node id's leading byte, the HRP and the node id bytes. -/
theorem decode_address_encoded (et etv : AbstractEntityType) (n : NetworkID)
    (b : Nat) (bytes : List Nat) (hb : entityTypeFromByte b = some etv)
    (hlt : ∀ x ∈ b :: bytes, x < 256) :
    decode_address (et.hrp ++ networkHrpSuffix n ++ '1' :: bytesToDataPart (b :: bytes)) =
      .ok (n, etv, et.hrp ++ networkHrpSuffix n, b :: bytes) := by
  have hno := hrp_no_separator et n
  have hsplit := splitAtSep_append (et.hrp ++ networkHrpSuffix n)
    (bytesToDataPart (b :: bytes)) hno
  unfold decode_address
  rw [hsplit]
  simp only [dataPart_roundtrip _ hlt, hb, networkFromHrp_recover]

end RWK

namespace RWK

/-- C3: for every public key (with in-range encoding bytes), network id and
entity kind (`Account` or `Identity`), decoding the address string produced by
`from_public_key` with `try_from_bech32` on the matching entity-address type
succeeds and recovers the same network id and the same entity kind. -/
theorem address_roundtrip_spec :
    ∀ (public_key : PublicKey) (n : NetworkID) (kind : AbstractEntityType),
    kind ≠ .Resource → (∀ b ∈ public_key.bytes, b < 256) →
    ∃ addr : List Char,
      EntityAddress.from_public_key kind public_key n = some (addr, n) ∧
      decode_address addr =
        .ok (n, kind, kind.hrp ++ networkHrpSuffix n,
             virtualComponentNodeId kind public_key) ∧
      EntityAddress.try_from_bech32 kind addr = .ok (addr, n) := by
  intro public_key n kind hkind hlt
  have hbytes : ∀ x ∈ kind.nodeIdByte :: public_key.bytes, x < 256 := by
    intro x hx
    rcases List.mem_cons.mp hx with h | h
    · cases kind <;> simp [AbstractEntityType.nodeIdByte] at h <;> omega
    · exact hlt x h
  have hhead : entityTypeFromByte kind.nodeIdByte = some kind := by
    cases kind <;> decide
  have hdec := decode_address_encoded kind kind n kind.nodeIdByte
    public_key.bytes hhead hbytes
  cases kind with
  | Resource => exact absurd rfl hkind
  | Account =>
    refine ⟨_, rfl, ?_, ?_⟩
    · simpa [virtualComponentNodeId] using hdec
    · unfold EntityAddress.try_from_bech32
      simp only [virtualComponentNodeId]
      rw [hdec]
      simp [listHasLead_append]
  | Identity =>
    refine ⟨_, rfl, ?_, ?_⟩
    · simpa [virtualComponentNodeId] using hdec
    · unfold EntityAddress.try_from_bech32
      simp only [virtualComponentNodeId]
      rw [hdec]
      simp [listHasLead_append]

/-- Witness for C3: a concrete Ed25519 key on Mainnet round-trips through the
account-address codec, recovering the network. -/
theorem address_roundtrip_spec_witness :
    ∃ addr : List Char,
      EntityAddress.from_public_key .Account (.ed25519 [1, 2, 3]) .Mainnet =
        some (addr, .Mainnet) ∧
      EntityAddress.try_from_bech32 .Account addr = .ok (addr, .Mainnet) := by
  obtain ⟨addr, h1, _, h3⟩ :=
    address_roundtrip_spec (.ed25519 [1, 2, 3]) .Mainnet .Account
      (by decide) (by decide)
  exact ⟨addr, h1, h3⟩

/-- C4: for every public key and network id, the address derived for entity
kind `Account` differs from the address derived for entity kind `Identity`
from the same key and network. -/
theorem account_identity_address_distinct :
    ∀ (public_key : PublicKey) (n : NetworkID),
    EntityAddress.from_public_key .Account public_key n ≠
      EntityAddress.from_public_key .Identity public_key n := by
  intro public_key n h
  simp only [EntityAddress.from_public_key, AbstractEntityType.hrp,
    List.cons_append, Option.some.injEq, Prod.mk.injEq] at h
  exact absurd h.1 (by simp)

end RWK

namespace RWK

/-- Every failure of `decode_address` is `FailedToDecodeAddressFromBech32`. -/
theorem decode_address_error_unique :
    ∀ (s : List Char) (e : CommonError),
    decode_address s = .error e → e = .FailedToDecodeAddressFromBech32 := by
  intro s e h
  unfold decode_address at h
  repeat' split at h
  all_goals simp_all

/-- C5: for every expected entity type and input string, `try_from_bech32`
returns the recoverable `FailedToDecodeAddressFromBech32` exactly when the
decode fails (and every decode failure is that error), returns the recoverable
`MismatchingEntityTypeWhileDecodingAddress` when the decoded entity kind
differs from the expected one, aborts fatally (the `assert!`) when the entity
kind matches but the HRP does not start with that kind's HRP, and succeeds in
every remaining case with the input string and the decoded network id. -/
theorem try_from_bech32_error_taxonomy :
    ∀ (expected : AbstractEntityType) (s : List Char),
    (∀ e, decode_address s = .error e →
      e = .FailedToDecodeAddressFromBech32 ∧
      EntityAddress.try_from_bech32 expected s =
        .err .FailedToDecodeAddressFromBech32) ∧
    (∀ n et hrp data, decode_address s = .ok (n, et, hrp, data) →
      (et ≠ expected →
        EntityAddress.try_from_bech32 expected s =
          .err .MismatchingEntityTypeWhileDecodingAddress) ∧
      (et = expected → listHasLead et.hrp hrp = false →
        EntityAddress.try_from_bech32 expected s = .fatal) ∧
      (et = expected → listHasLead et.hrp hrp = true →
        EntityAddress.try_from_bech32 expected s = .ok (s, n))) := by
  intro expected s
  constructor
  · intro e hdec
    have he := decode_address_error_unique s e hdec
    subst he
    refine ⟨rfl, ?_⟩
    unfold EntityAddress.try_from_bech32
    rw [hdec]
  · intro n et hrp data hdec
    refine ⟨?_, ?_, ?_⟩
    · intro hne
      unfold EntityAddress.try_from_bech32
      rw [hdec]
      simp [hne]
    · intro heq hlead
      subst heq
      unfold EntityAddress.try_from_bech32
      rw [hdec]
      simp [hlead]
    · intro heq hlead
      subst heq
      unfold EntityAddress.try_from_bech32
      rw [hdec]
      simp [hlead]

/-- Witness for C5 at four concrete inputs against the account-address type:
a malformed string (decode failure), an identity address (entity-type
mismatch), a string whose payload names an account but whose HRP is an
identity HRP (the fatal `assert!` case), and a well-formed account address
(success). -/
theorem try_from_bech32_error_taxonomy_witness :
    EntityAddress.try_from_bech32 .Account ['x', 'y'] =
      .err .FailedToDecodeAddressFromBech32 ∧
    EntityAddress.try_from_bech32 .Account
      (AbstractEntityType.Identity.hrp ++ networkHrpSuffix .Mainnet ++
        '1' :: bytesToDataPart [210]) =
      .err .MismatchingEntityTypeWhileDecodingAddress ∧
    EntityAddress.try_from_bech32 .Account
      (AbstractEntityType.Identity.hrp ++ networkHrpSuffix .Mainnet ++
        '1' :: bytesToDataPart [209]) = .fatal ∧
    EntityAddress.try_from_bech32 .Account
      (AbstractEntityType.Account.hrp ++ networkHrpSuffix .Mainnet ++
        '1' :: bytesToDataPart [209]) =
      .ok (AbstractEntityType.Account.hrp ++ networkHrpSuffix .Mainnet ++
        '1' :: bytesToDataPart [209], .Mainnet) := by
  refine ⟨?_, ?_, ?_, ?_⟩
  · exact ((try_from_bech32_error_taxonomy .Account ['x', 'y']).1
      .FailedToDecodeAddressFromBech32 rfl).2
  · exact ((try_from_bech32_error_taxonomy .Account _).2 .Mainnet .Identity
      (AbstractEntityType.Identity.hrp ++ networkHrpSuffix .Mainnet) [210]
      (decode_address_encoded .Identity .Identity .Mainnet 210 [] (by decide)
        (by decide))).1 (by decide)
  · exact ((try_from_bech32_error_taxonomy .Account _).2 .Mainnet .Account
      (AbstractEntityType.Identity.hrp ++ networkHrpSuffix .Mainnet) [209]
      (decode_address_encoded .Identity .Account .Mainnet 209 [] (by decide)
        (by decide))).2.1 rfl (by decide)
  · exact ((try_from_bech32_error_taxonomy .Account _).2 .Mainnet .Account
      (AbstractEntityType.Account.hrp ++ networkHrpSuffix .Mainnet) [209]
      (decode_address_encoded .Account .Account .Mainnet 209 [] (by decide)
        (by decide))).2.2 rfl (by decide)

end RWK

namespace RWK

/-- `2^64`, the word modulus of SHA-512. -/
def w64 : Nat := 18446744073709551616

/-- 64-bit right rotation. -/
def rotr64 (x n : Nat) : Nat :=
  ((x >>> n) ||| (x <<< (64 - n))) % w64

/-- The eighty SHA-512 round constants (FIPS 180-4). -/
def shaK : List Nat :=
  [ 4794697086780616226  , 8158064640168781261  , 13096744586834688815
  , 16840607885511220156  , 4131703408338449720  , 6480981068601479193
  , 10538285296894168987  , 12329834152419229976  , 15566598209576043074
  , 1334009975649890238  , 2608012711638119052  , 6128411473006802146
  , 8268148722764581231  , 9286055187155687089  , 11230858885718282805
  , 13951009754708518548  , 16472876342353939154  , 17275323862435702243
  , 1135362057144423861  , 2597628984639134821  , 3308224258029322869
  , 5365058923640841347  , 6679025012923562964  , 8573033837759648693
  , 10970295158949994411  , 12119686244451234320  , 12683024718118986047
  , 13788192230050041572  , 14330467153632333762  , 15395433587784984357
  , 489312712824947311  , 1452737877330783856  , 2861767655752347644
  , 3322285676063803686  , 5560940570517711597  , 5996557281743188959
  , 7280758554555802590  , 8532644243296465576  , 9350256976987008742
  , 10552545826968843579  , 11727347734174303076  , 12113106623233404929
  , 14000437183269869457  , 14369950271660146224  , 15101387698204529176
  , 15463397548674623760  , 17586052441742319658  , 1182934255886127544
  , 1847814050463011016  , 2177327727835720531  , 2830643537854262169
  , 3796741975233480872  , 4115178125766777443  , 5681478168544905931
  , 6601373596472566643  , 7507060721942968483  , 8399075790359081724
  , 8693463985226723168  , 9568029438360202098  , 10144078919501101548
  , 10430055236837252648  , 11840083180663258601  , 13761210420658862357
  , 14299343276471374635  , 14566680578165727644  , 15097957966210449927
  , 16922976911328602910  , 17689382322260857208  , 500013540394364858
  , 748580250866718886  , 1242879168328830382  , 1977374033974150939
  , 2944078676154940804  , 3659926193048069267  , 4368137639120453308
  , 4836135668995329356  , 5532061633213252278  , 6448918945643986474
  , 6902733635092675308  , 7801388544844847127 ]

/-- The SHA-512 initial hash value. -/
def shaH0 : List Nat :=
  [ 7640891576956012808  , 13503953896175478587  , 4354685564936845355
  , 11912009170470909681  , 5840696475078001361  , 11170449401992604703
  , 2270897969802886507  , 6620516959819538809 ]

/-- SHA-512 Σ0. -/
def shaBigS0 (x : Nat) : Nat := rotr64 x 28 ^^^ rotr64 x 34 ^^^ rotr64 x 39

/-- SHA-512 Σ1. -/
def shaBigS1 (x : Nat) : Nat := rotr64 x 14 ^^^ rotr64 x 18 ^^^ rotr64 x 41

/-- SHA-512 σ0. -/
def shaSmallS0 (x : Nat) : Nat := rotr64 x 1 ^^^ rotr64 x 8 ^^^ (x >>> 7)

/-- SHA-512 σ1. -/
def shaSmallS1 (x : Nat) : Nat := rotr64 x 19 ^^^ rotr64 x 61 ^^^ (x >>> 6)

/-- Extends the message schedule by one word. -/
def shaScheduleStep (w : List Nat) : List Nat :=
  let n := w.length
  w ++ [ (shaSmallS1 (w.getD (n - 2) 0) + w.getD (n - 7) 0 +
          shaSmallS0 (w.getD (n - 15) 0) + w.getD (n - 16) 0) % w64 ]

/-- Iterates a function a fixed number of times. -/
def iterateFn {α : Type} (f : α → α) : Nat → α → α
  | 0, a => a
  | k + 1, a => iterateFn f k (f a)

/-- One SHA-512 compression round on the 8-word working state. -/
def shaCompressRound (st : List Nat) (k w : Nat) : List Nat :=
  match st with
  | [a, b, c, d, e, f, g, h] =>
    let ch := (e &&& f) ^^^ ((e ^^^ (w64 - 1)) &&& g)
    let t1 := (h + shaBigS1 e + ch + k + w) % w64
    let maj := (a &&& b) ^^^ (a &&& c) ^^^ (b &&& c)
    let t2 := (shaBigS0 a + maj) % w64
    [(t1 + t2) % w64, a, b, c, (d + t1) % w64, e, f, g]
  | _ => st

/-- SHA-512 compression of one 16-word block into the running state. -/
def sha512Compress (state block : List Nat) : List Nat :=
  let w := iterateFn shaScheduleStep 64 block
  let final := (shaK.zip w).foldl (fun st kw => shaCompressRound st kw.1 kw.2) state
  (state.zip final).map (fun pq => (pq.1 + pq.2) % w64)

/-- Big-endian byte rendering of a value into a fixed byte count. -/
def beBytes (count n : Nat) : List Nat :=
  (List.range count).map (fun i => (n >>> (8 * (count - 1 - i))) % 256)

/-- Little-endian byte rendering of a value into a fixed byte count. -/
def leBytes (count n : Nat) : List Nat :=
  (List.range count).map (fun i => (n >>> (8 * i)) % 256)

/-- SHA-512 padding: `0x80`, zeros, and the 128-bit big-endian bit length. -/
def sha512Pad (msg : List Nat) : List Nat :=
  let len := msg.length
  let padZeros := (128 - (len + 17) % 128) % 128
  msg ++ 0x80 :: List.replicate padZeros 0 ++ beBytes 16 (len * 8)

/-- Groups bytes into big-endian 64-bit words. -/
def bytesToWords64 : List Nat → List Nat
  | b0 :: b1 :: b2 :: b3 :: b4 :: b5 :: b6 :: b7 :: rest =>
    (((((((b0 * 256 + b1) * 256 + b2) * 256 + b3) * 256 + b4) * 256 + b5) * 256
      + b6) * 256 + b7) :: bytesToWords64 rest
  | _ => []

/-- Groups a word list into 16-word blocks (fuelled by the list length). -/
def chunkWords : Nat → List Nat → List (List Nat)
  | 0, _ => []
  | _, [] => []
  | fuel + 1, ws => ws.take 16 :: chunkWords fuel (ws.drop 16)

/-- SHA-512 of a byte string (FIPS 180-4), producing the 64 digest bytes. -/
def sha512 (msg : List Nat) : List Nat :=
  let words := bytesToWords64 (sha512Pad msg)
  let final := (chunkWords words.length words).foldl sha512Compress shaH0
  (final.map (beBytes 8)).flatten

/-- Little-endian bytes to a natural number. -/
def leBytesToNat (bytes : List Nat) : Nat :=
  bytes.foldr (fun b acc => acc * 256 + b) 0

end RWK

namespace RWK

/-- The Curve25519 field prime `2^255 - 19`. -/
def ed_p : Nat := 2 ^ 255 - 19

/-- The edwards25519 curve constant `d = -121665/121666`. -/
def ed_d : Nat :=
  37095705934669439343138083508754565189542113879843219016388785533085940283555

/-- The x-coordinate of the Ed25519 base point. -/
def edBx : Nat :=
  15112221349535400772501151409588531511454012693041857206046113283949847762202

/-- The y-coordinate of the Ed25519 base point. -/
def edBy : Nat :=
  46316835694926478169428394003475163141307993866256225615783033603165251855960

/-- A point of edwards25519 in extended homogeneous coordinates `(X:Y:Z:T)`
with `x = X/Z`, `y = Y/Z`, `T = XY/Z`. -/
structure EdPoint where
  X : Nat
  Y : Nat
  Z : Nat
  T : Nat
deriving DecidableEq, Repr

/-- The neutral element. -/
def edZero : EdPoint := ⟨0, 1, 1, 0⟩

/-- The Ed25519 base point in extended coordinates. -/
def edBase : EdPoint := ⟨edBx, edBy, 1, edBx * edBy % ed_p⟩

/-- Complete point addition on edwards25519 (the `add-2008-hwcd-3` formulas for
`a = -1` twisted Edwards curves, valid also for doubling). -/
def edAdd (P Q : EdPoint) : EdPoint :=
  let A := (P.Y + ed_p - P.X) * (Q.Y + ed_p - Q.X) % ed_p
  let B := (P.Y + P.X) * (Q.Y + Q.X) % ed_p
  let C := P.T * Q.T % ed_p * (2 * ed_d % ed_p) % ed_p
  let D := P.Z * Q.Z % ed_p * 2 % ed_p
  let E := (B + ed_p - A) % ed_p
  let F := (D + ed_p - C) % ed_p
  let G := (D + C) % ed_p
  let H := (B + A) % ed_p
  ⟨E * F % ed_p, G * H % ed_p, F * G % ed_p, E * H % ed_p⟩

/-- One double-and-add round of base-point multiplication, consuming bit `i`
of the scalar. -/
def edMulRound (k i : Nat) (acc : EdPoint) : EdPoint :=
  let acc2 := edAdd acc acc
  if (k >>> i) % 2 = 1 then edAdd acc2 edBase else acc2

/-- MSB-first double-and-add over the lowest `i` bits of the scalar. -/
def edMulStep (k : Nat) : Nat → EdPoint → EdPoint
  | 0, acc => acc
  | i + 1, acc => edMulStep k i (edMulRound k i acc)

/-- Scalar multiplication `k · B` of the Ed25519 base point. -/
def edBaseMul (k : Nat) : EdPoint := edMulStep k 256 edZero

/-- Eight unrolled double-and-add rounds (proof-staging helper equal to eight
`edMulRound` steps, see `edMulStep_chunk32`). -/
def edMulChunk (k i : Nat) (acc : EdPoint) : EdPoint :=
  edMulRound k i (edMulRound k (i + 1) (edMulRound k (i + 2) (edMulRound k (i + 3)
    (edMulRound k (i + 4) (edMulRound k (i + 5) (edMulRound k (i + 6)
      (edMulRound k (i + 7) acc)))))))

/-- Thirty-two unrolled double-and-add rounds. -/
def edMulChunk32 (k i : Nat) (acc : EdPoint) : EdPoint :=
  edMulChunk k i (edMulChunk k (i + 8) (edMulChunk k (i + 16) (edMulChunk k (i + 24) acc)))

set_option maxRecDepth 4000 in
/-- Thirty-two rounds of `edMulStep` equal one `edMulChunk32` application. -/
theorem edMulStep_chunk32 (k i : Nat) (acc : EdPoint) :
    edMulStep k (i + 32) acc = edMulStep k i (edMulChunk32 k i acc) := rfl

/-- Modular inverse in the Curve25519 field, by Fermat exponentiation. -/
def edInv (x : Nat) : Nat := powMod 256 x (ed_p - 2) ed_p

/-- Ed25519 point compression: 32 little-endian bytes of `y` with the parity
of `x` in the top bit. -/
def edEncodePoint (P : EdPoint) : List Nat :=
  let zi := edInv P.Z
  let x := P.X * zi % ed_p
  let y := P.Y * zi % ed_p
  leBytes 32 (y + x % 2 * 2 ^ 255)

/-- The RFC 8032 secret-scalar clamp of a 32-byte seed: the scalar is the
little-endian value of the first 32 bytes of `SHA-512(seed)` with bits 0–2 and
bit 255 cleared and bit 254 set. -/
def ed25519Clamp (seed : List Nat) : Nat :=
  let scalar := leBytesToNat ((sha512 seed).take 32)
  2 ^ 254 + 8 * (scalar % 2 ^ 254 / 8)

/-- Ed25519 public-key derivation from a 32-byte seed (SHA-512, clamp,
base-point multiplication, compression): the external `ed25519-dalek`
primitive that `Ed25519PrivateKey::public_key` delegates to, embedded from
RFC 8032. -/
def ed25519PublicKeyBytes (seed : List Nat) : List Nat :=
  edEncodePoint (edBaseMul (ed25519Clamp seed))

/-- An Ed25519 public key holding its 32 compressed-point bytes, from
`ed25519/public_key.rs` (referenced by `private_key.rs`). -/
structure Ed25519PublicKey where
  value : List Nat
deriving DecidableEq, Repr

/-- `Ed25519PrivateKey::public_key()`: the engine's scalar-multiplication
derivation of the compressed public key. -/
def Ed25519PrivateKey.public_key (sk : Ed25519PrivateKey) : Ed25519PublicKey :=
  ⟨ed25519PublicKeyBytes sk.bytes⟩

/-- `Ed25519PublicKey::to_hex()`: lowercase hex of the compressed bytes. -/
def Ed25519PublicKey.to_hex (pk : Ed25519PublicKey) : String :=
  String.mk (bytesToDataPart pk.value)

/-- The 32-byte seed `0x00…01` of the test vector. -/
def seed01 : List Nat := List.replicate 31 0 ++ [1]

end RWK

namespace RWK

/-- The clamped secret scalar of the seed `0x00…01`. -/
def edScalar01 : Nat :=
  37140839617063522037504071384087362857224160210060440720989963580798660667632

/-- The accumulator after 32 double-and-add rounds for `edScalar01`. -/
def edQ1 : EdPoint :=
  ⟨15002182051399980633358703813964580678033418863244600357120795764993987166836,
   37964831608270196725717415080416373107835952709495920347741155771693138837038,
   32534650117962819056468745448061998204017141090580726267281515867335251261780,
   48490877278577602827868289555061630994963113008320900813086468621427918588184⟩

/-- The accumulator after 64 double-and-add rounds for `edScalar01`. -/
def edQ2 : EdPoint :=
  ⟨52841690643154203073501917570982228977156301577548495749413140597193693429525,
   15866113479423300548432384325487280220763042635625032217823409434196263792916,
   50546500364281420256099507810121293218676339260567941731102343054673922521569,
   54699331069988921417407928305995895464325525612184967308384322783567815728720⟩

/-- The accumulator after 96 double-and-add rounds for `edScalar01`. -/
def edQ3 : EdPoint :=
  ⟨3026947950085937940155945931343293959871980682790236595210814544407725961842,
   16499192724290764450227164829333356418843975388349847662006387263229266748177,
   64844550155257317939183546552406375519832516681362860416348320618525570826,
   33330036960655235787947762714545850395735925089866494849338404531011259241021⟩

/-- The accumulator after 128 double-and-add rounds for `edScalar01`. -/
def edQ4 : EdPoint :=
  ⟨56750632774738823450380584318141697809183416954501258241340883063711952511421,
   50707214006694995395347276424297498450373787852563309614043279183061251946442,
   49697435713267914376420399011724574354771789520994949790618798060088174009206,
   15230631000311854459966527184668731020867770459773895389387707043287676081005⟩

/-- The accumulator after 160 double-and-add rounds for `edScalar01`. -/
def edQ5 : EdPoint :=
  ⟨37664378653741313374612288623211472973615494977638588202056617479868651944377,
   19102640732438748503953340422727918839244823693951201484537841983432067805478,
   36588849145774746162851652832616362622596441673355088129191093335900207867789,
   22843654383742397409549778134805333078422826911466907384099211331726935051457⟩

/-- The accumulator after 192 double-and-add rounds for `edScalar01`. -/
def edQ6 : EdPoint :=
  ⟨52539622654929328304845979088420276815740257174792398320534630180319412250051,
   23973629206969706060137110949029265375753583268630458467976279406828646553176,
   7601354258900870576669498159330578325922868637361787363118914693556292805922,
   27821467191198319135765460068982222263709946659312631157762491414197668197469⟩

/-- The accumulator after 224 double-and-add rounds for `edScalar01`. -/
def edQ7 : EdPoint :=
  ⟨10793958900013094127570212242239466069120446728782943177362674139732157809652,
   5256905222785338168516379823207704713030792802981246718062841317379761745025,
   31513271116399235974646048618325446589793533857812958383118900232531072840209,
   38865877582357933654479545933990124891566332606892881009974381429173028874528⟩

/-- The accumulator after 256 double-and-add rounds for `edScalar01`. -/
def edQ8 : EdPoint :=
  ⟨18285965199712977912479858516789944785476830024945230857517326870576702035454,
   17966182327389578619907846549246622565713090837899529065316263499543769273962,
   15302978577965019424112166830705096152972343417154052243082201063970173864499,
   23540478463957214025837306161091900213316721190561962094555770708832442824108⟩

set_option maxRecDepth 8000 in
/-- Base-point multiplication by the clamped scalar of the test seed,
computed in eight 32-round stages. -/
theorem edBaseMul_edScalar01 : edBaseMul edScalar01 = edQ8 := by
  have hq1 : edMulChunk32 edScalar01 224 edZero = edQ1 := by decide
  have hq2 : edMulChunk32 edScalar01 192 edQ1 = edQ2 := by decide
  have hq3 : edMulChunk32 edScalar01 160 edQ2 = edQ3 := by decide
  have hq4 : edMulChunk32 edScalar01 128 edQ3 = edQ4 := by decide
  have hq5 : edMulChunk32 edScalar01 96 edQ4 = edQ5 := by decide
  have hq6 : edMulChunk32 edScalar01 64 edQ5 = edQ6 := by decide
  have hq7 : edMulChunk32 edScalar01 32 edQ6 = edQ7 := by decide
  have hq8 : edMulChunk32 edScalar01 0 edQ7 = edQ8 := by decide
  calc edBaseMul edScalar01 = edMulStep edScalar01 256 edZero := rfl
    _ = edMulStep edScalar01 224 (edMulChunk32 edScalar01 224 edZero) :=
        edMulStep_chunk32 edScalar01 224 edZero
    _ = edMulStep edScalar01 224 edQ1 := by rw [hq1]
    _ = edMulStep edScalar01 192 (edMulChunk32 edScalar01 192 edQ1) :=
        edMulStep_chunk32 edScalar01 192 edQ1
    _ = edMulStep edScalar01 192 edQ2 := by rw [hq2]
    _ = edMulStep edScalar01 160 (edMulChunk32 edScalar01 160 edQ2) :=
        edMulStep_chunk32 edScalar01 160 edQ2
    _ = edMulStep edScalar01 160 edQ3 := by rw [hq3]
    _ = edMulStep edScalar01 128 (edMulChunk32 edScalar01 128 edQ3) :=
        edMulStep_chunk32 edScalar01 128 edQ3
    _ = edMulStep edScalar01 128 edQ4 := by rw [hq4]
    _ = edMulStep edScalar01 96 (edMulChunk32 edScalar01 96 edQ4) :=
        edMulStep_chunk32 edScalar01 96 edQ4
    _ = edMulStep edScalar01 96 edQ5 := by rw [hq5]
    _ = edMulStep edScalar01 64 (edMulChunk32 edScalar01 64 edQ5) :=
        edMulStep_chunk32 edScalar01 64 edQ5
    _ = edMulStep edScalar01 64 edQ6 := by rw [hq6]
    _ = edMulStep edScalar01 32 (edMulChunk32 edScalar01 32 edQ6) :=
        edMulStep_chunk32 edScalar01 32 edQ6
    _ = edMulStep edScalar01 32 edQ7 := by rw [hq7]
    _ = edMulStep edScalar01 0 (edMulChunk32 edScalar01 0 edQ7) :=
        edMulStep_chunk32 edScalar01 0 edQ7
    _ = edMulStep edScalar01 0 edQ8 := by rw [hq8]
    _ = edQ8 := rfl

set_option maxRecDepth 8000 in
/-- C10: the Ed25519 private key constructed from the 32-byte value
`0x00…01` (31 zero bytes then `0x01`) is accepted by `from_bytes`, and its
public key hex-encodes to
`4cb5abf6ad79fbf5abbccafcc269d85cd2651ed4b885b5869f241aedf0a5ba29`. -/
theorem ed25519_test_vector :
    Ed25519PrivateKey.from_bytes seed01 = .ok ⟨seed01⟩ ∧
    (Ed25519PrivateKey.mk seed01).public_key.to_hex =
      "4cb5abf6ad79fbf5abbccafcc269d85cd2651ed4b885b5869f241aedf0a5ba29" := by
  refine ⟨rfl, ?_⟩
  have hclamp : ed25519Clamp seed01 = edScalar01 := by decide
  have hbytes : ed25519PublicKeyBytes seed01 = [76, 181, 171, 246, 173, 121, 251, 245, 171, 188, 202, 252, 194, 105, 216, 92, 210, 101, 30, 212, 184, 133, 181, 134, 159, 36, 26, 237, 240, 165, 186, 41] := by
    calc ed25519PublicKeyBytes seed01
        = edEncodePoint (edBaseMul (ed25519Clamp seed01)) := rfl
      _ = edEncodePoint (edBaseMul edScalar01) := by rw [hclamp]
      _ = edEncodePoint edQ8 := by rw [edBaseMul_edScalar01]
      _ = [76, 181, 171, 246, 173, 121, 251, 245, 171, 188, 202, 252, 194, 105, 216, 92, 210, 101, 30, 212, 184, 133, 181, 134, 159, 36, 26, 237, 240, 165, 186, 41] := by decide
  have hbytes2 : ed25519PublicKeyBytes ((Ed25519PrivateKey.mk seed01).bytes) =
      [76, 181, 171, 246, 173, 121, 251, 245, 171, 188, 202, 252, 194, 105, 216, 92, 210, 101, 30, 212, 184, 133, 181, 134, 159, 36, 26, 237, 240, 165, 186, 41] := hbytes
  have hpk : (Ed25519PrivateKey.mk seed01).public_key =
      Ed25519PublicKey.mk [76, 181, 171, 246, 173, 121, 251, 245, 171, 188, 202, 252, 194, 105, 216, 92, 210, 101, 30, 212, 184, 133, 181, 134, 159, 36, 26, 237, 240, 165, 186, 41] :=
    congrArg Ed25519PublicKey.mk hbytes2
  rw [hpk]
  rfl

end RWK
